import Mathlib

/-!
Verification development for the offline-first synchronization layer of the
Library POS application (frontend/src/services/offlineDB.js, syncManager.js,
offlineAPI.js, offlineApi.js, utils/db.js, utils/syncManager.js).

The JavaScript code is shallowly embedded as pure Lean functions:
  * IndexedDB / Dexie record collections become lists keyed by their keyPath;
    `put` is an upsert on the keyed list, `getAll` returns the list.
  * Promise-returning functions become functions returning a value (and,
    where a rejection is observable by the caller, an `Except String`).
  * `new Date().toISOString()` timestamps become a `Nat` clock value passed
    explicitly; ISO-8601 strings compare chronologically, so `Nat` order is
    faithful to the string order used by the source.
  * The remote REST client (services/api.js) is a parameter: a record of
    functions giving the outcome of each endpoint call.
  * Connectivity (`navigator.onLine`) is a `Bool` parameter, constant over
    one modelled run.
Record objects carry the fields the sync layer reads or writes; other
scalar attributes (stock_qty, unit_price, ...) are carried opaquely by every
modelled operation (plain object spread in the source) and are elided.
-/

namespace LibraryPOS

/-- A JavaScript id value: server-assigned ids are numbers, the
offlineAPI.js temp-id scheme produces strings of the form "temp_<ms>". -/
inductive JsId where
  | num (n : Int)
  | str (s : String)
  deriving DecidableEq, Repr

/-- A data record (book / publisher / transaction), with the fields the
sync layer touches.  Absent JS fields are modelled as `none` / defaults. -/
structure Record where
  book_id : Option JsId := none
  pub_id : Option JsId := none
  trans_id : Option JsId := none
  title : String := ""
  author : String := ""
  isbn : String := ""
  offlineFlag : Bool := false
  trans_date : Option Nat := none
  syncedFlag : Option Bool := none
  deriving DecidableEq, Repr

/-- The pending-operation kind strings dispatched by
SyncManager.processSyncOperation; `other` covers the default (unknown
string) case of the switch. -/
inductive OpType where
  | CREATE_BOOK
  | UPDATE_BOOK
  | DELETE_BOOK
  | CREATE_PUBLISHER
  | CREATE_TRANSACTION
  | other (s : String)
  deriving DecidableEq, Repr

/-- A syncQueue row (offlineDB.js store `syncQueue`, keyPath `id`,
autoIncrement): `{ type, data, timestamp, synced, syncedAt? }`. -/
structure QueueItem where
  id : Nat
  type : OpType
  data : Record
  timestamp : Nat
  synced : Bool
  syncedAt : Option Nat := none
  deriving DecidableEq, Repr

/-- A metadata row (offlineDB.js store `metadata`, keyPath `key`):
`{ key, value, timestamp }` as written by OfflineDB.saveMetadata. -/
structure MetaRecord where
  key : String
  value : Nat
  timestamp : Nat
  deriving DecidableEq, Repr

/-- The state of the part_000 IndexedDB database (LibraryPOS_DB): the three
entity collections, the syncQueue, the metadata table, and the
auto-increment counter the engine keeps for syncQueue keys. -/
structure Store where
  books : List Record
  publishers : List Record
  transactions : List Record
  syncQueue : List QueueItem
  metadata : List MetaRecord
  nextQueueId : Nat
  deriving DecidableEq, Repr

/-- The empty database. -/
def Store.empty : Store :=
  { books := [], publishers := [], transactions := [], syncQueue := [],
    metadata := [], nextQueueId := 1 }

/-- First record in a keyed list whose key equals `k` (IndexedDB
`store.get`). -/
def getByKey {α κ : Type} [DecidableEq κ] (key : α → κ) (k : κ) : List α → Option α
  | [] => none
  | x :: xs => if key x = k then some x else getByKey key k xs

/-- Upsert into a keyed list (IndexedDB `store.put`): replace the first
record with the same key, or append if the key is new. -/
def putByKey {α κ : Type} [DecidableEq κ] (key : α → κ) (r : α) : List α → List α
  | [] => [r]
  | x :: xs => if key x = key r then r :: xs else x :: putByKey key r xs

/-- Put a list of records one by one, in order (the forEach-put loop of
OfflineDB.saveToStore and the for-put loop of DatabaseManager.saveBooks). -/
def saveList {α κ : Type} [DecidableEq κ] (key : α → κ) (rs : List α) (acc : List α) : List α :=
  rs.foldl (fun l r => putByKey key r l) acc

namespace OfflineDB

/-- OfflineDB.addToSyncQueue: spread the operation, stamp timestamp = now
and synced = false, and put it into syncQueue; the engine assigns the next
auto-increment key. -/
def addToSyncQueue (type : OpType) (data : Record) (now : Nat) (s : Store) : Store :=
  { s with
    syncQueue := putByKey QueueItem.id
      { id := s.nextQueueId, type := type, data := data, timestamp := now,
        synced := false, syncedAt := none } s.syncQueue,
    nextQueueId := s.nextQueueId + 1 }

/-- OfflineDB.getPendingSync: all syncQueue rows with synced = false, in
store (key) order. -/
def getPendingSync (s : Store) : List QueueItem :=
  s.syncQueue.filter (fun item => !item.synced)

/-- OfflineDB.markSyncComplete: fetch the row by id; if present, set
synced = true, stamp syncedAt = now, and put it back. -/
def markSyncComplete (i : Nat) (now : Nat) (s : Store) : Store :=
  match getByKey QueueItem.id i s.syncQueue with
  | none => s
  | some item =>
      { s with syncQueue :=
          putByKey QueueItem.id { item with synced := true, syncedAt := some now } s.syncQueue }

/-- OfflineDB.saveMetadata: put `{ key, value, timestamp: now }` into the
metadata store. -/
def saveMetadata (k : String) (v : Nat) (now : Nat) (s : Store) : Store :=
  { s with metadata := putByKey MetaRecord.key ⟨k, v, now⟩ s.metadata }

/-- OfflineDB.getMetadata: the `value` of the metadata row, if any. -/
def getMetadata (k : String) (s : Store) : Option Nat :=
  (getByKey MetaRecord.key k s.metadata).map MetaRecord.value

/-- OfflineDB.saveToStore with the storage-engine outcome made explicit:
the IndexedDB transaction either completes (resolve) or errors, in which
case the promise rejects with the transaction error — the error is never
swallowed.  `fault = some e` injects an engine failure.  (The sync-run
model below assumes a healthy engine.)  Shown here for the books store; the
plumbing is identical for every store name. -/
def saveToStoreBooksE (fault : Option String) (data : List Record) (s : Store) :
    Except String Store :=
  match fault with
  | some e => .error e
  | none => .ok { s with books := saveList Record.book_id data s.books }

end OfflineDB

/-- The remote REST client (services/api.js), as the outcome of each call
a sync run can issue.  `getBooks` takes the search term (booksAPI.getAll);
the sync pull calls it with the default empty term. -/
structure Remote where
  createBook : Record → Except String Record
  updateBook : Option JsId → Record → Except String Record
  deleteBook : Option JsId → Except String Record
  createPublisher : Record → Except String Record
  createTransaction : Record → Except String Record
  getBooks : String → Except String (List Record)
  getPublishers : Except String (List Record)
  getTransactions : Except String (List Record)

/-- The result accumulator built by the replay loop of
SyncManager.syncAll: `{ success, failed, errors }`, where each errors entry
records the failed operation and the error message. -/
structure SyncResults where
  success : Nat
  failed : Nat
  errors : List (QueueItem × String)
  deriving DecidableEq, Repr

/-- What a SyncManager.syncAll call hands back to its caller:
  * `skipped` — the early `return` (JS `undefined`) taken when already
    syncing or offline;
  * `emptyQueue` — `{ success: true, synced: 0 }` from the empty-queue path;
  * `completed r` — the results object from a full replay + pull;
  * `threw e` — the promise rejected (the rethrow in the catch block). -/
inductive SyncOutcome where
  | skipped
  | emptyQueue
  | completed (r : SyncResults)
  | threw (e : String)
  deriving DecidableEq, Repr

/-- Everything observable about one syncAll call: the returned value, the
database afterwards, the pending operations dispatched to the Remote
Client (in dispatch order), and the isSyncing flag afterwards. -/
structure SyncRun where
  outcome : SyncOutcome
  store : Store
  dispatches : List QueueItem
  syncingAfter : Bool
  deriving Repr

/-- What the replay for-loop of syncAll produces: the accumulator, the
database after the per-operation markSyncComplete calls, and the ordered
list of operations dispatched to the Remote Client. -/
structure ReplayOut where
  results : SyncResults
  store : Store
  calls : List QueueItem
  deriving Repr

namespace SyncManager

/-- SyncManager.processSyncOperation: dispatch one pending operation to
the Remote Client by its type; unknown types throw. -/
def processSyncOperation (R : Remote) (op : QueueItem) : Except String Record :=
  match op.type with
  | .CREATE_BOOK => R.createBook op.data
  | .UPDATE_BOOK => R.updateBook op.data.book_id op.data
  | .DELETE_BOOK => R.deleteBook op.data.book_id
  | .CREATE_PUBLISHER => R.createPublisher op.data
  | .CREATE_TRANSACTION => R.createTransaction op.data
  | .other s => .error ("Unknown operation type: " ++ s)

/-- Whether the replay of one operation succeeds against this remote. -/
def replayOk (R : Remote) (op : QueueItem) : Bool :=
  (processSyncOperation R op).isOk

/-- The `for (const op of pendingOps)` loop of syncAll: dispatch each
operation; on success mark it synced and count it, on failure count it and
push `{ op, error }` — and in both cases continue with the next one. -/
def replayLoop (R : Remote) (now : Nat) : List QueueItem → Store → ReplayOut
  | [], s => ⟨⟨0, 0, []⟩, s, []⟩
  | op :: rest, s =>
    match processSyncOperation R op with
    | .ok _ =>
      let out := replayLoop R now rest (OfflineDB.markSyncComplete op.id now s)
      ⟨⟨out.results.success + 1, out.results.failed, out.results.errors⟩,
       out.store, op :: out.calls⟩
    | .error e =>
      let out := replayLoop R now rest s
      ⟨⟨out.results.success, out.results.failed + 1, (op, e) :: out.results.errors⟩,
       out.store, op :: out.calls⟩

/-- SyncManager.pullFromServer: no-op when offline; otherwise fetch the
three collections (Promise.all — an error in any fetch rejects before any
local write), then clear each store and save the fetched set into it. -/
def pullFromServer (R : Remote) (online : Bool) (s : Store) : Except String Store :=
  if online = false then .ok s
  else
    match R.getBooks "", R.getPublishers, R.getTransactions with
    | .ok bs, .ok ps, .ok ts =>
        .ok { s with
          books := saveList Record.book_id bs [],
          publishers := saveList Record.pub_id ps [],
          transactions := saveList Record.trans_id ts [] }
    | .error e, _, _ => .error e
    | _, .error e, _ => .error e
    | _, _, .error e => .error e

/-- SyncManager.syncAll.  Skip (returning undefined) when already syncing
or offline; otherwise load the pending operations; on an empty queue just
pull and return `{ success: true, synced: 0 }`; otherwise replay every
pending operation, pull, stamp the lastSync metadata, and return the
results object.  A pull failure is rethrown (after the replay marks have
already been stored); the finally block clears isSyncing on every
non-skipped path. -/
def syncAll (R : Remote) (online isSyncing : Bool) (now : Nat) (s : Store) : SyncRun :=
  if isSyncing || !online then ⟨.skipped, s, [], isSyncing⟩
  else
    let pending := OfflineDB.getPendingSync s
    if pending.isEmpty then
      match pullFromServer R online s with
      | .ok s1 => ⟨.emptyQueue, s1, [], false⟩
      | .error e => ⟨.threw e, s, [], false⟩
    else
      let out := replayLoop R now pending s
      match pullFromServer R online out.store with
      | .ok s1 =>
          ⟨.completed out.results, OfflineDB.saveMetadata "lastSync" now now s1,
           out.calls, false⟩
      | .error e => ⟨.threw e, out.store, out.calls, false⟩

/-- SyncManager.queueOperation: build `{ type, data, timestamp }` and hand
it to OfflineDB.addToSyncQueue (which re-stamps timestamp and adds
synced = false).  The debounced fire-and-forget syncAll trigger is not part
of the stored effect. -/
def queueOperation (type : OpType) (data : Record) (now : Nat) (s : Store) : Store :=
  OfflineDB.addToSyncQueue type data now s

/-- The object returned by SyncManager.getSyncStatus. -/
structure SyncStatus where
  isOnline : Bool
  isSyncing : Bool
  pendingOperations : Nat
  lastSync : Option Nat
  hasPendingChanges : Bool
  deriving DecidableEq, Repr

/-- SyncManager.getSyncStatus: read the pending queue and the lastSync
metadata (both through readonly IndexedDB transactions, which cannot write
— hence the returned store) and assemble the status object. -/
def getSyncStatus (online isSyncing : Bool) (s : Store) : SyncStatus × Store :=
  let pendingOps := OfflineDB.getPendingSync s
  let lastSync := OfflineDB.getMetadata "lastSync" s
  (⟨online, isSyncing, pendingOps.length, lastSync, pendingOps.length > 0⟩, s)

end SyncManager

/-- The errors list the replay loop of syncAll accumulates over a batch:
one `(op, error message)` entry per failed dispatch, in batch order. -/
def failuresOf (R : Remote) : List QueueItem → List (QueueItem × String)
  | [] => []
  | op :: rest =>
    match SyncManager.processSyncOperation R op with
    | .ok _ => failuresOf R rest
    | .error e => (op, e) :: failuresOf R rest

/-- The payload of a fetch outcome (the fetched list when it succeeded). -/
def fetchedOr (x : Except String (List Record)) : List Record :=
  match x with
  | .ok l => l
  | .error _ => []

/-- Whether all three collection fetches of a pull succeed. -/
def fetchesOk (R : Remote) : Bool :=
  (R.getBooks "").isOk && R.getPublishers.isOk && R.getTransactions.isOk

/-- The store a successful pullFromServer leaves behind: each collection
cleared and repopulated with the fetched set; queue and metadata
untouched. -/
def pulledStore (R : Remote) (s : Store) : Store :=
  { s with
    books := saveList Record.book_id (fetchedOr (R.getBooks "")) [],
    publishers := saveList Record.pub_id (fetchedOr R.getPublishers) [],
    transactions := saveList Record.trans_id (fetchedOr R.getTransactions) [] }

/-- Whether the first list is a prefix of the second. -/
def prefixEq : List Char → List Char → Bool
  | [], _ => true
  | _ :: _, [] => false
  | p :: ps, c :: cs => p = c && prefixEq ps cs

/-- Whether `pat` occurs contiguously inside the second list. -/
def containsSub (pat : List Char) : List Char → Bool
  | [] => prefixEq pat []
  | c :: rest => prefixEq pat (c :: rest) || containsSub pat rest

/-- JavaScript String.prototype.toLowerCase (ASCII, as used on titles and
authors). -/
def lowerStr (s : String) : String :=
  ⟨s.data.map Char.toLower⟩

/-- JavaScript String.prototype.includes: the empty pattern is always
found; otherwise the pattern must occur contiguously in the string. -/
def jsIncludes (s pat : String) : Bool :=
  pat.data = [] || containsSub pat.data s.data

/-- The client-side search filter of OfflineAPI.books.getAll
(offlineAPI.js): case-insensitive containment over title or author. -/
def offlineApiBookFilter (searchTerm : String) (books : List Record) : List Record :=
  books.filter (fun book =>
    jsIncludes (lowerStr book.title) (lowerStr searchTerm) ||
    jsIncludes (lowerStr book.author) (lowerStr searchTerm))

namespace OfflineAPI

/-- OfflineAPI.books.getAll (offlineAPI.js): when online try the remote
call and cache + return its result; on remote failure, or when offline,
fall back to the cached books, applying the search filter when a term was
given. -/
def books.getAll (online : Bool) (remote : String → Except String (List Record))
    (searchTerm : String) (s : Store) : List Record × Store :=
  match online, remote searchTerm with
  | true, .ok bs => (bs, { s with books := saveList Record.book_id bs s.books })
  | true, .error _ =>
      (if searchTerm ≠ "" then offlineApiBookFilter searchTerm s.books else s.books, s)
  | false, _ =>
      (if searchTerm ≠ "" then offlineApiBookFilter searchTerm s.books else s.books, s)

/-- OfflineAPI.publishers.getAll: same shape, no filter. -/
def publishers.getAll (online : Bool) (remote : Except String (List Record))
    (s : Store) : List Record × Store :=
  match online, remote with
  | true, .ok ps => (ps, { s with publishers := saveList Record.pub_id ps s.publishers })
  | true, .error _ => (s.publishers, s)
  | false, _ => (s.publishers, s)

/-- OfflineAPI.transactions.getAll: same shape, no filter. -/
def transactions.getAll (online : Bool) (remote : Except String (List Record))
    (s : Store) : List Record × Store :=
  match online, remote with
  | true, .ok ts =>
      (ts, { s with transactions := saveList Record.trans_id ts s.transactions })
  | true, .error _ => (s.transactions, s)
  | false, _ => (s.transactions, s)

/-- The offline tail of OfflineAPI.books.create. -/
def books.createOffline (bookData : Record) (now : Nat) (s : Store) : Record × Store :=
  let tempBook := { bookData with
    book_id := some (JsId.str ("temp_" ++ toString now)), offlineFlag := true }
  let s1 := { s with books := putByKey Record.book_id tempBook s.books }
  (tempBook, SyncManager.queueOperation .CREATE_BOOK bookData now s1)

/-- OfflineAPI.books.create: when online try the remote create and mirror
its result; on failure, or offline, build the temp record
`{ ...bookData, book_id: "temp_<now>", _offline: true }`, store it, queue a
CREATE_BOOK operation, and return it. -/
def books.create (online : Bool) (remoteCreate : Record → Except String Record)
    (bookData : Record) (now : Nat) (s : Store) : Record × Store :=
  match online, remoteCreate bookData with
  | true, .ok book => (book, { s with books := putByKey Record.book_id book s.books })
  | true, .error _ => books.createOffline bookData now s
  | false, _ => books.createOffline bookData now s

/-- The offline tail of OfflineAPI.transactions.create: the temp record is
`{ ...transactionData, trans_id: "temp_<now>", _offline: true,
trans_date: now }`. -/
def transactions.createOffline (transactionData : Record) (now : Nat) (s : Store) :
    Record × Store :=
  let tempTransaction := { transactionData with
    trans_id := some (JsId.str ("temp_" ++ toString now)), offlineFlag := true,
    trans_date := some now }
  let s1 := { s with transactions := putByKey Record.trans_id tempTransaction s.transactions }
  (tempTransaction, SyncManager.queueOperation .CREATE_TRANSACTION transactionData now s1)

/-- OfflineAPI.transactions.create: the offline path additionally stamps
trans_date with the current time. -/
def transactions.create (online : Bool) (remoteCreate : Record → Except String Record)
    (transactionData : Record) (now : Nat) (s : Store) : Record × Store :=
  match online, remoteCreate transactionData with
  | true, .ok t => (t, { s with transactions := putByKey Record.trans_id t s.transactions })
  | true, .error _ => transactions.createOffline transactionData now s
  | false, _ => transactions.createOffline transactionData now s

end OfflineAPI

/-- A pendingTransactions row of the Dexie database (utils/db.js):
`{ id (auto), data, timestamp, synced }`. -/
structure PendingTrans where
  id : Nat
  data : Record
  timestamp : Nat
  synced : Bool
  deriving DecidableEq, Repr

/-- The state of the Dexie database LibraryPOSDB (utils/db.js): books,
publishers, transactions, pendingTransactions, syncQueue, plus the
auto-increment counters for the keyed-by-`++id` tables. -/
structure DexieStore where
  books : List Record
  publishers : List Record
  transactions : List Record
  pendingTransactions : List PendingTrans
  syncQueue : List QueueItem
  nextQueueId : Nat
  nextPendingId : Nat
  deriving DecidableEq, Repr

/-- The empty Dexie database. -/
def DexieStore.empty : DexieStore :=
  { books := [], publishers := [], transactions := [], pendingTransactions := [],
    syncQueue := [], nextQueueId := 1, nextPendingId := 1 }

namespace DexieDB

/-- offlineDB.saveBooks (utils/db.js, Dexie helper): clear the books table
then bulkAdd the list — inside a try/catch that only logs storage errors,
so the promise always resolves.  `fault = some e` injects an engine
failure in the bulkAdd (after the clear): the error is logged and
swallowed, and the call still reports success. -/
def saveBooks (fault : Option String) (books : List Record) (s : DexieStore) :
    Except String (Unit × DexieStore) :=
  match fault with
  | some _ => .ok ((), { s with books := [] })
  | none => .ok ((), { s with books := books })

/-- offlineDB.getBooks: toArray, with a catch that swallows a storage
failure and returns the default []. -/
def getBooks (fault : Option String) (s : DexieStore) :
    Except String (List Record × DexieStore) :=
  match fault with
  | some _ => .ok ([], s)
  | none => .ok ((s.books, s))

/-- offlineDB.addBook: db.books.add — rejects on a duplicate key, but the
catch swallows that too, so the table gains the book only when its key is
new. -/
def addBook (book : Record) (s : DexieStore) : DexieStore :=
  if (getByKey Record.book_id book.book_id s.books).isSome then s
  else { s with books := s.books ++ [book] }

/-- offlineDB.saveTransactions (utils/db.js): clear the transactions table
then bulkAdd the list with every row re-stamped synced: true — inside a
catch that only logs, so the call always resolves.  `fault = some e`
injects an engine failure in the bulkAdd (after the clear). -/
def saveTransactions (fault : Option String) (ts : List Record) (s : DexieStore) :
    Except String (Unit × DexieStore) :=
  match fault with
  | some _ => .ok ((), { s with transactions := [] })
  | none =>
      .ok ((), { s with transactions := ts.map (fun t => { t with syncedFlag := some true }) })

/-- offlineDB.getTransactions: toArray, with a catch that swallows a
storage failure and returns the default []. -/
def getTransactions (fault : Option String) (s : DexieStore) :
    Except String (List Record × DexieStore) :=
  match fault with
  | some _ => .ok ([], s)
  | none => .ok ((s.transactions, s))

/-- offlineDB.addToSyncQueue (utils/db.js): add
`{ type, data, timestamp, synced: false }` with an auto-increment id;
a storage failure here is rethrown to the caller. -/
def addToSyncQueue (fault : Option String) (type : OpType) (data : Record)
    (now : Nat) (s : DexieStore) : Except String (Nat × DexieStore) :=
  match fault with
  | some e => .error e
  | none => .ok (s.nextQueueId,
      { s with
        syncQueue := s.syncQueue ++
          [{ id := s.nextQueueId, type := type, data := data, timestamp := now,
             synced := false, syncedAt := none }],
        nextQueueId := s.nextQueueId + 1 })

/-- offlineDB.addPendingTransaction: like addToSyncQueue, a storage
failure is rethrown. -/
def addPendingTransaction (fault : Option String) (data : Record) (now : Nat)
    (s : DexieStore) : Except String (Nat × DexieStore) :=
  match fault with
  | some e => .error e
  | none => .ok (s.nextPendingId,
      { s with
        pendingTransactions := s.pendingTransactions ++
          [{ id := s.nextPendingId, data := data, timestamp := now, synced := false }],
        nextPendingId := s.nextPendingId + 1 })

/-- offlineDB.markSynced (utils/db.js): db.syncQueue.update(id,
{synced: true}) — sets exactly the synced key of the row with that id, a
no-op when the id is absent. -/
def markSynced (i : Nat) (s : DexieStore) : DexieStore :=
  { s with syncQueue := s.syncQueue.map (fun it =>
      if it.id = i then { it with synced := true } else it) }

/-- offlineDB.getSyncQueue: the rows with synced = false. -/
def getSyncQueue (s : DexieStore) : List QueueItem :=
  s.syncQueue.filter (fun item => !item.synced)

end DexieDB

/-- The client-side search filter of offlineBooksAPI.getAll
(offlineApi.js): case-insensitive containment over title or author, or
raw containment over isbn. -/
def offlineBooksFilter (searchTerm : String) (books : List Record) : List Record :=
  books.filter (fun book =>
    jsIncludes (lowerStr book.title) (lowerStr searchTerm) ||
    jsIncludes (lowerStr book.author) (lowerStr searchTerm) ||
    jsIncludes book.isbn searchTerm)

namespace offlineBooksAPI

/-- offlineBooksAPI.getAll (offlineApi.js): always try the remote call
first; on success cache (clear + bulkAdd) and return the data; in the
catch, fall back to the cached books (with the filter applied) only when
navigator.onLine is false — an online failure is rethrown.  The storage
engine is healthy in this model. -/
def getAll (online : Bool) (remote : String → Except String (List Record))
    (searchTerm : String) (s : DexieStore) : Except String (List Record) × DexieStore :=
  match remote searchTerm with
  | .ok data => (.ok data, { s with books := data })
  | .error e =>
      if online = false then
        (.ok (if searchTerm ≠ "" then offlineBooksFilter searchTerm s.books else s.books), s)
      else (.error e, s)

/-- offlineBooksAPI.create: try the remote create and cache its result; in
the catch, when offline, build `{ ...bookData, book_id: Date.now() }` (a
plain number, no offline marker), cache it, queue a CREATE_BOOK operation,
and return it; an online failure is rethrown. -/
def create (online : Bool) (remoteCreate : Record → Except String Record)
    (bookData : Record) (now : Nat) (s : DexieStore) :
    Except String Record × DexieStore :=
  match remoteCreate bookData with
  | .ok result => (.ok result, DexieDB.addBook result s)
  | .error e =>
      if online = false then
        let tempBook := { bookData with book_id := some (JsId.num now) }
        let s1 := DexieDB.addBook tempBook s
        match DexieDB.addToSyncQueue none .CREATE_BOOK bookData now s1 with
        | .ok (_, s2) => (.ok tempBook, s2)
        | .error e2 => (.error e2, s1)
      else (.error e, s)

end offlineBooksAPI

/-- The trans_id of the temp record offlineTransactionsAPI.create builds:
in `{ trans_id: Date.now(), ...transactionData, ... }` the stamp sits
before the spread, so a trans_id already present in the payload overrides
the temporary id. -/
def tempTransId (payload : Record) (now : Nat) : Option JsId :=
  match payload.trans_id with
  | some v => some v
  | none => some (JsId.num now)

namespace offlineTransactionsAPI

/-- offlineTransactionsAPI.create (offlineApi.js): on success, re-cache
the transactions list plus the server result through saveTransactions; on
an offline failure, save the data to pendingTransactions, build the temp
record `{ trans_id: Date.now(), ...data, trans_date: now, synced: false }`
(the payload's own trans_id, if any, wins over the stamp before the
spread; trans_date and synced sit after it and always win), store it via
getTransactions + saveTransactions (which re-stamps every stored row
synced: true), and return it; an online failure is rethrown.  The storage
engine is healthy in this model. -/
def create (online : Bool) (remoteCreate : Record → Except String Record)
    (transactionData : Record) (now : Nat) (s : DexieStore) :
    Except String Record × DexieStore :=
  match remoteCreate transactionData with
  | .ok result =>
      match DexieDB.getTransactions none s with
      | .ok (transactions, s0) =>
          match DexieDB.saveTransactions none (transactions ++ [result]) s0 with
          | .ok (_, s1) => (.ok result, s1)
          | .error e2 => (.error e2, s0)
      | .error e2 => (.error e2, s)
  | .error e =>
      if online = false then
        match DexieDB.addPendingTransaction none transactionData now s with
        | .ok (_, s1) =>
            let tempTransaction := { transactionData with
              trans_id := tempTransId transactionData now, trans_date := some now,
              syncedFlag := some false }
            match DexieDB.getTransactions none s1 with
            | .ok (transactions, s2) =>
                match DexieDB.saveTransactions none (transactions ++ [tempTransaction]) s2 with
                | .ok (_, s3) => (.ok tempTransaction, s3)
                | .error e2 => (.error e2, s2)
            | .error e2 => (.error e2, s1)
        | .error e2 => (.error e2, s)
      else (.error e, s)

end offlineTransactionsAPI

/-! Concrete instances used by witnesses and counterexamples -/

/-- A remote on which book creates succeed but book updates fail. -/
def c1Remote : Remote :=
  { createBook := fun r => .ok r, updateBook := fun _ _ => .error "Network Error",
    deleteBook := fun _ => .ok {}, createPublisher := fun r => .ok r,
    createTransaction := fun r => .ok r, getBooks := fun _ => .ok [],
    getPublishers := .ok [], getTransactions := .ok [] }

def c1OpA : QueueItem :=
  { id := 1, type := .CREATE_BOOK, data := {}, timestamp := 10, synced := false }

def c1OpB : QueueItem :=
  { id := 2, type := .UPDATE_BOOK, data := {}, timestamp := 11, synced := false }

def c1OpC : QueueItem :=
  { id := 3, type := .CREATE_BOOK, data := {}, timestamp := 12, synced := false }

def c1Store : Store :=
  { Store.empty with syncQueue := [c1OpA, c1OpB, c1OpC], nextQueueId := 4 }

/-- A remote every endpoint of which fails (the skip paths never reach it). -/
def c2Remote : Remote :=
  { createBook := fun _ => .error "down", updateBook := fun _ _ => .error "down",
    deleteBook := fun _ => .error "down", createPublisher := fun _ => .error "down",
    createTransaction := fun _ => .error "down", getBooks := fun _ => .error "down",
    getPublishers := .error "down", getTransactions := .error "down" }

def c2Store : Store :=
  { Store.empty with
    books := [{ book_id := some (.num 1), title := "Dune" }],
    syncQueue := [{ id := 1, type := .CREATE_BOOK, data := {}, timestamp := 3,
                    synced := false }],
    nextQueueId := 2 }

def c4Remote : Remote :=
  { createBook := fun r => .ok r, updateBook := fun _ _ => .error "Network Error",
    deleteBook := fun _ => .ok {}, createPublisher := fun r => .ok r,
    createTransaction := fun r => .ok r, getBooks := fun _ => .ok [],
    getPublishers := .ok [], getTransactions := .ok [] }

def c4Store : Store :=
  { Store.empty with
    syncQueue :=
      [{ id := 1, type := .CREATE_BOOK, data := {}, timestamp := 1, synced := false },
       { id := 2, type := .CREATE_PUBLISHER, data := {}, timestamp := 2, synced := true,
         syncedAt := some 2 },
       { id := 3, type := .UPDATE_BOOK, data := {}, timestamp := 3, synced := false },
       { id := 4, type := .CREATE_TRANSACTION, data := {}, timestamp := 4, synced := false }],
    nextQueueId := 5 }

def c5ServerBook1 : Record := { book_id := some (.num 1), title := "Dune" }

def c5ServerBook2 : Record := { book_id := some (.num 2), title := "Emma" }

def c5ServerPub : Record := { pub_id := some (.num 7), title := "" }

def c5ServerTrans : Record := { trans_id := some (.num 9), trans_date := some 3 }

/-- A remote whose three collection fetches succeed with fixed data. -/
def c5Remote : Remote :=
  { createBook := fun _ => .error "down", updateBook := fun _ _ => .error "down",
    deleteBook := fun _ => .error "down", createPublisher := fun _ => .error "down",
    createTransaction := fun _ => .error "down",
    getBooks := fun _ => .ok [c5ServerBook1, c5ServerBook2],
    getPublishers := .ok [c5ServerPub], getTransactions := .ok [c5ServerTrans] }

/-- A stale record present only locally before the pull. -/
def c5StaleBook : Record := { book_id := some (.num 99), title := "Ghost" }

def c5LocalPub : Record := { pub_id := some (.num 50) }

def c5Store : Store :=
  { Store.empty with
    books := [c5StaleBook],
    publishers := [c5LocalPub] }

def c3Item : QueueItem :=
  { id := 1, type := .CREATE_BOOK, data := {}, timestamp := 2, synced := true,
    syncedAt := some 5 }

def c3Store : Store :=
  { Store.empty with syncQueue := [c3Item], nextQueueId := 2 }

def c3Dexie : DexieStore :=
  { DexieStore.empty with
    syncQueue := [{ id := 1, type := .CREATE_BOOK, data := {}, timestamp := 2,
                    synced := false }],
    nextQueueId := 2 }

/-- A remote on which every replay and every fetch succeeds. -/
def c3Remote : Remote :=
  { createBook := fun r => .ok r, updateBook := fun _ r => .ok r,
    deleteBook := fun _ => .ok {}, createPublisher := fun r => .ok r,
    createTransaction := fun r => .ok r, getBooks := fun _ => .ok [c5ServerBook1],
    getPublishers := .ok [], getTransactions := .ok [] }

def c3RunStore : Store :=
  { Store.empty with
    syncQueue := [{ id := 1, type := .CREATE_BOOK, data := {}, timestamp := 4,
                    synced := false }],
    nextQueueId := 2 }

/-- A remote whose fetches succeed; used for the empty-queue run. -/
def c6Remote : Remote :=
  { createBook := fun r => .ok r, updateBook := fun _ r => .ok r,
    deleteBook := fun _ => .ok {}, createPublisher := fun r => .ok r,
    createTransaction := fun r => .ok r, getBooks := fun _ => .ok [c5ServerBook1],
    getPublishers := .ok [], getTransactions := .ok [] }

/-- lastSync was written at time 1; the pending queue is empty. -/
def c6Store : Store :=
  { Store.empty with metadata := [⟨"lastSync", 1, 1⟩] }

def c6bStore : Store :=
  { Store.empty with
    syncQueue := [{ id := 1, type := .CREATE_BOOK, data := {}, timestamp := 4,
                    synced := false }],
    nextQueueId := 2 }

def c7MobyDick : Record :=
  { book_id := some (.num 1), title := "Moby Dick", author := "Herman Melville",
    isbn := "111" }

def c7WarAndPeace : Record :=
  { book_id := some (.num 2), title := "War and Peace", author := "Leo Tolstoy",
    isbn := "222" }

def c7Dexie : DexieStore :=
  { DexieStore.empty with books := [c7MobyDick, c7WarAndPeace] }

def c7Store : Store :=
  { Store.empty with books := [c7MobyDick, c7WarAndPeace] }

/-- A books fetch that fails with a network error. -/
def c7RemoteFail : String → Except String (List Record) :=
  fun _ => .error "Network Error"

def c8Book : Record := { book_id := some (.num 1), title := "Dune" }

def c8Dexie : DexieStore := { DexieStore.empty with books := [c8Book] }

def c9Data : Record := { title := "X", author := "Y", isbn := "Z" }

def c9TransData : Record := { title := "", author := "" }

/-- A create endpoint that fails with a network error. -/
def c9RemoteCreateFail : Record → Except String Record :=
  fun _ => .error "Network Error"

/-- A books fetch that fails with a network error. -/
def c9RemoteGetFail : String → Except String (List Record) :=
  fun _ => .error "Network Error"

/-- The identity and payload part of a queue row: everything except the
synced / syncedAt bookkeeping fields. -/
def QueueItem.payloadPart (it : QueueItem) : Nat × OpType × Record × Nat :=
  (it.id, it.type, it.data, it.timestamp)

/-! Keyed-list lemmas -/

theorem getByKey_key_eq {α κ : Type} [DecidableEq κ] (key : α → κ) (k : κ)
    (l : List α) (x : α) (h : getByKey key k l = some x) : key x = k := by
  induction l with
  | nil => simp [getByKey] at h
  | cons y ys ih =>
    rw [getByKey] at h
    split at h
    · cases h; assumption
    · exact ih h

theorem getByKey_putByKey_self {α κ : Type} [DecidableEq κ] (key : α → κ) (r : α)
    (l : List α) : getByKey key (key r) (putByKey key r l) = some r := by
  induction l with
  | nil => simp [getByKey, putByKey]
  | cons y ys ih =>
    rw [putByKey]
    split
    · simp [getByKey]
    · rw [getByKey]
      split
      · next hcond => next hne => exact absurd hcond hne
      · exact ih

theorem getByKey_putByKey_ne {α κ : Type} [DecidableEq κ] (key : α → κ) (r : α)
    (k : κ) (hk : k ≠ key r) (l : List α) :
    getByKey key k (putByKey key r l) = getByKey key k l := by
  induction l with
  | nil =>
    simp only [putByKey, getByKey]
    rw [if_neg (fun h : key r = k => hk h.symm)]
  | cons y ys ih =>
    rw [putByKey]
    by_cases hcond : key y = key r
    · rw [if_pos hcond]
      simp only [getByKey]
      rw [if_neg (fun h : key r = k => hk h.symm),
          if_neg (fun h : key y = k => hk (hcond.symm.trans h).symm)]
    · rw [if_neg hcond]
      simp only [getByKey]
      by_cases hyk : key y = k
      · rw [if_pos hyk, if_pos hyk]
      · rw [if_neg hyk, if_neg hyk]
        exact ih

theorem putByKey_map_key {α κ : Type} [DecidableEq κ] (key : α → κ) (r : α)
    (l : List α) (x : α) (hx : getByKey key (key r) l = some x) :
    (putByKey key r l).map key = l.map key := by
  induction l with
  | nil => simp [getByKey] at hx
  | cons y ys ih =>
    rw [getByKey] at hx
    rw [putByKey]
    split
    · next hcond => simp [hcond]
    · next hcond =>
      rw [if_neg hcond] at hx
      simp [ih hx]

theorem putByKey_of_not_mem {α κ : Type} [DecidableEq κ] (key : α → κ) (r : α)
    (l : List α) (h : key r ∉ l.map key) : putByKey key r l = l ++ [r] := by
  induction l with
  | nil => simp [putByKey]
  | cons y ys ih =>
    simp only [List.map_cons, List.mem_cons] at h
    push_neg at h
    rw [putByKey, if_neg (fun hc => h.1 hc.symm), ih h.2]
    simp

theorem getByKey_of_mem_nodup {α κ : Type} [DecidableEq κ] (key : α → κ)
    (l : List α) (r : α) (hr : r ∈ l) (hnd : (l.map key).Nodup) :
    getByKey key (key r) l = some r := by
  induction l with
  | nil => cases hr
  | cons y ys ih =>
    rw [getByKey]
    rcases List.mem_cons.mp hr with h | h
    · subst h; simp
    · simp only [List.map_cons, List.nodup_cons] at hnd
      split
      · next hcond =>
        exact absurd (hcond ▸ List.mem_map_of_mem key h) hnd.1
      · exact ih h hnd.2

theorem mem_of_getByKey {α κ : Type} [DecidableEq κ] (key : α → κ) (k : κ)
    (l : List α) (x : α) (h : getByKey key k l = some x) : x ∈ l := by
  induction l with
  | nil => simp [getByKey] at h
  | cons y ys ih =>
    rw [getByKey] at h
    split at h
    · cases h; exact List.mem_cons_self _ _
    · exact List.mem_cons_of_mem _ (ih h)

theorem saveList_of_nodup_append {α κ : Type} [DecidableEq κ] (key : α → κ) :
    ∀ (rs acc : List α), ((acc ++ rs).map key).Nodup → saveList key rs acc = acc ++ rs := by
  intro rs
  induction rs with
  | nil => intro acc _; simp [saveList]
  | cons r rest ih =>
    intro acc hnd
    have hnotmem : key r ∉ acc.map key := by
      simp only [List.map_append, List.nodup_append, List.map_cons] at hnd
      intro hmem
      exact hnd.2.2 hmem (by simp)
    have hstep : saveList key (r :: rest) acc = saveList key rest (putByKey key r acc) := by
      simp [saveList, List.foldl_cons]
    rw [hstep, putByKey_of_not_mem key r acc hnotmem,
        ih (acc ++ [r]) (by simpa [List.append_assoc] using hnd)]
    simp

theorem saveList_of_nodup {α κ : Type} [DecidableEq κ] (key : α → κ)
    (rs : List α) (hnd : (rs.map key).Nodup) : saveList key rs [] = rs := by
  simpa using saveList_of_nodup_append key rs [] (by simpa using hnd)

theorem putByKey_idem {α κ : Type} [DecidableEq κ] (key : α → κ) (r : α) (l : List α) :
    putByKey key r (putByKey key r l) = putByKey key r l := by
  induction l with
  | nil => simp [putByKey]
  | cons y ys ih =>
    rw [putByKey]
    by_cases h : key y = key r
    · rw [if_pos h, putByKey, if_pos rfl]
    · rw [if_neg h, putByKey, if_neg h, ih]

theorem putByKey_map_of_agree {α κ β : Type} [DecidableEq κ] (key : α → κ) (r : α)
    (l : List α) (x : α) (f : α → β)
    (hx : getByKey key (key r) l = some x) (hf : f r = f x) :
    (putByKey key r l).map f = l.map f := by
  induction l with
  | nil => simp [getByKey] at hx
  | cons y ys ih =>
    rw [getByKey] at hx
    rw [putByKey]
    by_cases hcond : key y = key r
    · rw [if_pos hcond] at hx
      rw [if_pos hcond]
      have hyx := Option.some.inj hx
      simp [hf, hyx]
    · rw [if_neg hcond] at hx
      rw [if_neg hcond]
      simp [ih hx]

theorem mem_putByKey_self {α κ : Type} [DecidableEq κ] (key : α → κ) (r : α)
    (l : List α) : r ∈ putByKey key r l := by
  induction l with
  | nil => simp [putByKey]
  | cons y ys ih =>
    rw [putByKey]
    by_cases h : key y = key r
    · rw [if_pos h]
      exact List.mem_cons_self _ _
    · rw [if_neg h]
      exact List.mem_cons_of_mem _ ih

/-! markSyncComplete lemmas -/

theorem markSyncComplete_fields (i now : Nat) (s : Store) :
    (OfflineDB.markSyncComplete i now s).books = s.books ∧
    (OfflineDB.markSyncComplete i now s).publishers = s.publishers ∧
    (OfflineDB.markSyncComplete i now s).transactions = s.transactions ∧
    (OfflineDB.markSyncComplete i now s).metadata = s.metadata ∧
    (OfflineDB.markSyncComplete i now s).nextQueueId = s.nextQueueId := by
  unfold OfflineDB.markSyncComplete
  split <;> exact ⟨rfl, rfl, rfl, rfl, rfl⟩

theorem getByKey_markSyncComplete_ne (i j now : Nat) (s : Store) (hij : j ≠ i) :
    getByKey QueueItem.id j (OfflineDB.markSyncComplete i now s).syncQueue
      = getByKey QueueItem.id j s.syncQueue := by
  unfold OfflineDB.markSyncComplete
  split
  · rfl
  · next item heq =>
    have hid : item.id = i := getByKey_key_eq _ _ _ _ heq
    exact getByKey_putByKey_ne QueueItem.id _ j (by simpa [hid] using hij) _

theorem getByKey_markSyncComplete_self (i now : Nat) (s : Store) (item : QueueItem)
    (hfound : getByKey QueueItem.id i s.syncQueue = some item) :
    getByKey QueueItem.id i (OfflineDB.markSyncComplete i now s).syncQueue
      = some { item with synced := true, syncedAt := some now } := by
  have hid : item.id = i := getByKey_key_eq _ _ _ _ hfound
  unfold OfflineDB.markSyncComplete
  rw [hfound]
  have h2 := getByKey_putByKey_self QueueItem.id
    { item with synced := true, syncedAt := some now } s.syncQueue
  simpa [hid] using h2

theorem markSyncComplete_map_id (i now : Nat) (s : Store) :
    (OfflineDB.markSyncComplete i now s).syncQueue.map QueueItem.id
      = s.syncQueue.map QueueItem.id := by
  unfold OfflineDB.markSyncComplete
  split
  · rfl
  · next item heq =>
    have hid : item.id = i := getByKey_key_eq _ _ _ _ heq
    exact putByKey_map_key QueueItem.id _ _ item (by simpa [hid] using heq)

/-! replayLoop lemmas -/

theorem replayLoop_nil (R : Remote) (now : Nat) (s : Store) :
    SyncManager.replayLoop R now [] s = ⟨⟨0, 0, []⟩, s, []⟩ := rfl

theorem replayLoop_cons_ok (R : Remote) (now : Nat) (op : QueueItem)
    (rest : List QueueItem) (s : Store) (v : Record)
    (hp : SyncManager.processSyncOperation R op = .ok v) :
    SyncManager.replayLoop R now (op :: rest) s =
      { results :=
          { success := (SyncManager.replayLoop R now rest
              (OfflineDB.markSyncComplete op.id now s)).results.success + 1,
            failed := (SyncManager.replayLoop R now rest
              (OfflineDB.markSyncComplete op.id now s)).results.failed,
            errors := (SyncManager.replayLoop R now rest
              (OfflineDB.markSyncComplete op.id now s)).results.errors },
        store := (SyncManager.replayLoop R now rest
          (OfflineDB.markSyncComplete op.id now s)).store,
        calls := op :: (SyncManager.replayLoop R now rest
          (OfflineDB.markSyncComplete op.id now s)).calls } := by
  rw [SyncManager.replayLoop, hp]

theorem replayLoop_cons_error (R : Remote) (now : Nat) (op : QueueItem)
    (rest : List QueueItem) (s : Store) (e : String)
    (hp : SyncManager.processSyncOperation R op = .error e) :
    SyncManager.replayLoop R now (op :: rest) s =
      { results :=
          { success := (SyncManager.replayLoop R now rest s).results.success,
            failed := (SyncManager.replayLoop R now rest s).results.failed + 1,
            errors := (op, e) :: (SyncManager.replayLoop R now rest s).results.errors },
        store := (SyncManager.replayLoop R now rest s).store,
        calls := op :: (SyncManager.replayLoop R now rest s).calls } := by
  rw [SyncManager.replayLoop, hp]

theorem replayLoop_calls (R : Remote) (now : Nat) :
    ∀ (l : List QueueItem) (s : Store), (SyncManager.replayLoop R now l s).calls = l := by
  intro l
  induction l with
  | nil => intro s; rfl
  | cons op rest ih =>
    intro s
    cases hp : SyncManager.processSyncOperation R op with
    | ok v => rw [replayLoop_cons_ok R now op rest s v hp]; simp [ih]
    | error e => rw [replayLoop_cons_error R now op rest s e hp]; simp [ih]

theorem replayLoop_results (R : Remote) (now : Nat) :
    ∀ (l : List QueueItem) (s : Store),
      (SyncManager.replayLoop R now l s).results =
        ⟨(l.filter (SyncManager.replayOk R)).length,
         (l.filter (fun op => !SyncManager.replayOk R op)).length,
         failuresOf R l⟩ := by
  intro l
  induction l with
  | nil => intro s; rfl
  | cons op rest ih =>
    intro s
    cases hp : SyncManager.processSyncOperation R op with
    | ok v =>
      rw [replayLoop_cons_ok R now op rest s v hp]
      simp [ih, failuresOf, SyncManager.replayOk, hp, List.filter_cons, Except.isOk, Except.toBool]
    | error e =>
      rw [replayLoop_cons_error R now op rest s e hp]
      simp [ih, failuresOf, SyncManager.replayOk, hp, List.filter_cons, Except.isOk, Except.toBool]

theorem replayLoop_store_fields (R : Remote) (now : Nat) :
    ∀ (l : List QueueItem) (s : Store),
      (SyncManager.replayLoop R now l s).store.books = s.books ∧
      (SyncManager.replayLoop R now l s).store.publishers = s.publishers ∧
      (SyncManager.replayLoop R now l s).store.transactions = s.transactions ∧
      (SyncManager.replayLoop R now l s).store.metadata = s.metadata ∧
      (SyncManager.replayLoop R now l s).store.nextQueueId = s.nextQueueId := by
  intro l
  induction l with
  | nil => intro s; exact ⟨rfl, rfl, rfl, rfl, rfl⟩
  | cons op rest ih =>
    intro s
    cases hp : SyncManager.processSyncOperation R op with
    | ok v =>
      rw [replayLoop_cons_ok R now op rest s v hp]
      have h1 := ih (OfflineDB.markSyncComplete op.id now s)
      have h2 := markSyncComplete_fields op.id now s
      exact ⟨h1.1.trans h2.1, h1.2.1.trans h2.2.1, h1.2.2.1.trans h2.2.2.1,
             h1.2.2.2.1.trans h2.2.2.2.1, h1.2.2.2.2.trans h2.2.2.2.2⟩
    | error e =>
      rw [replayLoop_cons_error R now op rest s e hp]
      exact ih s

theorem replayLoop_map_id (R : Remote) (now : Nat) :
    ∀ (l : List QueueItem) (s : Store),
      (SyncManager.replayLoop R now l s).store.syncQueue.map QueueItem.id
        = s.syncQueue.map QueueItem.id := by
  intro l
  induction l with
  | nil => intro s; rfl
  | cons op rest ih =>
    intro s
    cases hp : SyncManager.processSyncOperation R op with
    | ok v =>
      rw [replayLoop_cons_ok R now op rest s v hp]
      exact (ih _).trans (markSyncComplete_map_id op.id now s)
    | error e =>
      rw [replayLoop_cons_error R now op rest s e hp]
      exact ih s

theorem replayLoop_getByKey_not_mem (R : Remote) (now : Nat) :
    ∀ (l : List QueueItem) (s : Store) (j : Nat), j ∉ l.map QueueItem.id →
      getByKey QueueItem.id j (SyncManager.replayLoop R now l s).store.syncQueue
        = getByKey QueueItem.id j s.syncQueue := by
  intro l
  induction l with
  | nil => intro s j _; rfl
  | cons op rest ih =>
    intro s j hj
    simp only [List.map_cons, List.mem_cons] at hj
    push_neg at hj
    cases hp : SyncManager.processSyncOperation R op with
    | ok v =>
      rw [replayLoop_cons_ok R now op rest s v hp]
      exact (ih _ j hj.2).trans (getByKey_markSyncComplete_ne op.id j now s hj.1)
    | error e =>
      rw [replayLoop_cons_error R now op rest s e hp]
      exact ih s j hj.2

theorem replayLoop_marks (R : Remote) (now : Nat) :
    ∀ (l : List QueueItem) (s : Store),
      (l.map QueueItem.id).Nodup →
      (∀ op ∈ l, getByKey QueueItem.id op.id s.syncQueue = some op) →
      ∀ op ∈ l, SyncManager.replayOk R op = true →
      getByKey QueueItem.id op.id (SyncManager.replayLoop R now l s).store.syncQueue
        = some { op with synced := true, syncedAt := some now } := by
  intro l
  induction l with
  | nil => intro s _ _ op hop; cases hop
  | cons op0 rest ih =>
    intro s hnd hfound op hop hok
    simp only [List.map_cons, List.nodup_cons] at hnd
    cases hp : SyncManager.processSyncOperation R op0 with
    | ok v =>
      rw [replayLoop_cons_ok R now op0 rest s v hp]
      rcases List.mem_cons.mp hop with rfl | hmem
      · rw [replayLoop_getByKey_not_mem R now rest _ op.id hnd.1]
        exact getByKey_markSyncComplete_self op.id now s op (hfound op (by simp))
      · refine ih (OfflineDB.markSyncComplete op0.id now s) hnd.2 ?_ op hmem hok
        intro op2 hop2
        rw [getByKey_markSyncComplete_ne op0.id op2.id now s ?hne]
        · exact hfound op2 (List.mem_cons_of_mem _ hop2)
        · intro hcontr
          exact hnd.1 (hcontr ▸ List.mem_map_of_mem QueueItem.id hop2)
    | error e =>
      rcases List.mem_cons.mp hop with rfl | hmem
      · rw [SyncManager.replayOk, hp] at hok
        cases hok
      · rw [replayLoop_cons_error R now op0 rest s e hp]
        exact ih s hnd.2 (fun op2 h2 => hfound op2 (List.mem_cons_of_mem _ h2)) op hmem hok

/-! pullFromServer, saveMetadata and syncAll lemmas -/

theorem pullFromServer_ok (R : Remote) (s : Store) (h : fetchesOk R = true) :
    SyncManager.pullFromServer R true s = .ok (pulledStore R s) := by
  unfold fetchesOk at h
  unfold SyncManager.pullFromServer pulledStore fetchedOr
  cases hb : R.getBooks "" <;> cases hq : R.getPublishers <;> cases ht : R.getTransactions <;>
    simp_all [Except.isOk, Except.toBool]

theorem pulledStore_fields (R : Remote) (s : Store) :
    (pulledStore R s).syncQueue = s.syncQueue ∧
    (pulledStore R s).metadata = s.metadata ∧
    (pulledStore R s).nextQueueId = s.nextQueueId :=
  ⟨rfl, rfl, rfl⟩

theorem saveMetadata_fields (k : String) (v now : Nat) (s : Store) :
    (OfflineDB.saveMetadata k v now s).books = s.books ∧
    (OfflineDB.saveMetadata k v now s).publishers = s.publishers ∧
    (OfflineDB.saveMetadata k v now s).transactions = s.transactions ∧
    (OfflineDB.saveMetadata k v now s).syncQueue = s.syncQueue :=
  ⟨rfl, rfl, rfl, rfl⟩

theorem getMetadata_saveMetadata_self (k : String) (v now : Nat) (s : Store) :
    OfflineDB.getMetadata k (OfflineDB.saveMetadata k v now s) = some v := by
  unfold OfflineDB.getMetadata OfflineDB.saveMetadata
  have h := getByKey_putByKey_self MetaRecord.key (⟨k, v, now⟩ : MetaRecord) s.metadata
  simp only at h
  simp [h]

theorem syncAll_empty_pending (R : Remote) (now : Nat) (s : Store)
    (hq : OfflineDB.getPendingSync s = []) (hf : fetchesOk R = true) :
    SyncManager.syncAll R true false now s = ⟨.emptyQueue, pulledStore R s, [], false⟩ := by
  unfold SyncManager.syncAll
  rw [pullFromServer_ok R s hf]
  simp [hq]

theorem syncAll_nonempty_pending (R : Remote) (now : Nat) (s : Store)
    (hq : OfflineDB.getPendingSync s ≠ []) (hf : fetchesOk R = true) :
    SyncManager.syncAll R true false now s =
      ⟨.completed (SyncManager.replayLoop R now (OfflineDB.getPendingSync s) s).results,
       OfflineDB.saveMetadata "lastSync" now now
         (pulledStore R (SyncManager.replayLoop R now (OfflineDB.getPendingSync s) s).store),
       (SyncManager.replayLoop R now (OfflineDB.getPendingSync s) s).calls, false⟩ := by
  unfold SyncManager.syncAll
  simp [List.isEmpty_iff, hq]
  rw [pullFromServer_ok R _ hf]

theorem pending_map_id_sublist (s : Store) :
    List.Sublist ((OfflineDB.getPendingSync s).map QueueItem.id)
      (s.syncQueue.map QueueItem.id) :=
  List.Sublist.map QueueItem.id (List.filter_sublist s.syncQueue)

theorem getPendingSync_replay_empty (R : Remote) (now : Nat) (s : Store)
    (hnd : (s.syncQueue.map QueueItem.id).Nodup)
    (hok : ∀ op ∈ OfflineDB.getPendingSync s, SyncManager.replayOk R op = true) :
    OfflineDB.getPendingSync
      (SyncManager.replayLoop R now (OfflineDB.getPendingSync s) s).store = [] := by
  have hndp : ((OfflineDB.getPendingSync s).map QueueItem.id).Nodup :=
    hnd.sublist (pending_map_id_sublist s)
  have hfound : ∀ op ∈ OfflineDB.getPendingSync s,
      getByKey QueueItem.id op.id s.syncQueue = some op := fun op hop =>
    getByKey_of_mem_nodup QueueItem.id s.syncQueue op
      (List.mem_of_mem_filter hop) hnd
  have hmap := replayLoop_map_id R now (OfflineDB.getPendingSync s) s
  rw [OfflineDB.getPendingSync, List.filter_eq_nil_iff]
  intro it hit
  simp only [Bool.not_eq_true', Bool.not_eq_false]
  have hndf : ((SyncManager.replayLoop R now (OfflineDB.getPendingSync s) s).store.syncQueue.map
      QueueItem.id).Nodup := by rw [hmap]; exact hnd
  have hself := getByKey_of_mem_nodup QueueItem.id _ it hit hndf
  have hidmem : it.id ∈ s.syncQueue.map QueueItem.id := by
    rw [← hmap]; exact List.mem_map_of_mem QueueItem.id hit
  obtain ⟨orig, horigmem, horigid⟩ := List.mem_map.mp hidmem
  by_cases hsyn : orig.synced
  · have hnotpend : it.id ∉ (OfflineDB.getPendingSync s).map QueueItem.id := by
      intro hin
      obtain ⟨op, hopmem, hopid⟩ := List.mem_map.mp hin
      have : op = orig := List.inj_on_of_nodup_map hnd
        (List.mem_of_mem_filter hopmem) horigmem (hopid.trans horigid.symm)
      rw [this] at hopmem
      have := List.of_mem_filter hopmem
      simp [hsyn] at this
    have heq := replayLoop_getByKey_not_mem R now (OfflineDB.getPendingSync s) s it.id hnotpend
    rw [hself] at heq
    have horigget : getByKey QueueItem.id it.id s.syncQueue = some orig := by
      rw [← horigid]
      exact getByKey_of_mem_nodup QueueItem.id s.syncQueue orig horigmem hnd
    rw [horigget] at heq
    rw [Option.some.inj heq]
    exact hsyn
  · have hpend : orig ∈ OfflineDB.getPendingSync s := by
      rw [OfflineDB.getPendingSync, List.mem_filter]
      exact ⟨horigmem, by simp [hsyn]⟩
    have hmark := replayLoop_marks R now (OfflineDB.getPendingSync s) s hndp hfound orig
      hpend (hok orig hpend)
    rw [horigid] at hmark
    rw [hself] at hmark
    rw [Option.some.inj hmark]

theorem pulledStore_eq_self (R : Remote) (s : Store)
    (hb : s.books = saveList Record.book_id (fetchedOr (R.getBooks "")) [])
    (hp : s.publishers = saveList Record.pub_id (fetchedOr R.getPublishers) [])
    (ht : s.transactions = saveList Record.trans_id (fetchedOr R.getTransactions) []) :
    pulledStore R s = s := by
  cases s
  simp_all [pulledStore]

/-! Claim theorems -/

/-- Claim C2: whenever a syncAll run is already in flight (isSyncing) or the
connectivity monitor reports offline, syncAll returns immediately with the
skipped result (the early return), dispatches no pending operation to the
Remote Client, and leaves the whole local database — collections, pending
queue and metadata — unchanged; in particular no second replay pass ever
starts while one is active. -/
theorem syncAll_skips_when_syncing_or_offline (R : Remote) (online isSyncing : Bool)
    (now : Nat) (s : Store) (h : isSyncing = true ∨ online = false) :
    SyncManager.syncAll R online isSyncing now s = ⟨.skipped, s, [], isSyncing⟩ := by
  rcases h with h | h <;> subst h <;> simp [SyncManager.syncAll]

/-- Witness for C2: a concrete in-flight call and a concrete offline call
both skip, touching nothing. -/
theorem syncAll_skips_when_syncing_or_offline_witness :
    SyncManager.syncAll c2Remote true true 5 c2Store = ⟨.skipped, c2Store, [], true⟩ ∧
    SyncManager.syncAll c2Remote false false 5 c2Store = ⟨.skipped, c2Store, [], false⟩ :=
  ⟨syncAll_skips_when_syncing_or_offline c2Remote true true 5 c2Store (Or.inl rfl),
   syncAll_skips_when_syncing_or_offline c2Remote false false 5 c2Store (Or.inr rfl)⟩

/-- Claim C10: the status object getSyncStatus returns is internally
consistent — hasPendingChanges is true exactly when the reported pending
count is positive — and computing it leaves the database (queue and all
collections) unchanged: both reads run in readonly transactions. -/
theorem getSyncStatus_consistent (online isSyncing : Bool) (s : Store) :
    ((SyncManager.getSyncStatus online isSyncing s).1.hasPendingChanges = true ↔
      0 < (SyncManager.getSyncStatus online isSyncing s).1.pendingOperations) ∧
    (SyncManager.getSyncStatus online isSyncing s).2 = s := by
  unfold SyncManager.getSyncStatus
  simp

/-- Claim C5: a successful pull replaces each Local Store collection
wholesale with the fetched set: after pullFromServer succeeds, books,
publishers and transactions equal exactly what the three fetches returned
(given the server data has no duplicate keys), so no record that was only
present locally survives. -/
theorem pullFromServer_wholesale_replace (R : Remote) (s : Store)
    (bs ps ts : List Record)
    (hb : R.getBooks "" = .ok bs) (hp : R.getPublishers = .ok ps)
    (ht : R.getTransactions = .ok ts)
    (hnb : (bs.map Record.book_id).Nodup) (hnp : (ps.map Record.pub_id).Nodup)
    (hnt : (ts.map Record.trans_id).Nodup) :
    SyncManager.pullFromServer R true s =
      .ok { s with books := bs, publishers := ps, transactions := ts } := by
  have hf : fetchesOk R = true := by
    simp [fetchesOk, hb, hp, ht, Except.isOk, Except.toBool]
  rw [pullFromServer_ok R s hf]
  unfold pulledStore
  rw [hb, hp, ht]
  simp only [fetchedOr]
  rw [saveList_of_nodup Record.book_id bs hnb, saveList_of_nodup Record.pub_id ps hnp,
      saveList_of_nodup Record.trans_id ts hnt]

/-- Witness for C5: pulling against a concrete remote drops the stale
local book and publisher and installs exactly the fetched sets. -/
theorem pullFromServer_wholesale_replace_witness :
    SyncManager.pullFromServer c5Remote true c5Store =
      .ok { c5Store with
            books := [c5ServerBook1, c5ServerBook2],
            publishers := [c5ServerPub],
            transactions := [c5ServerTrans] } :=
  pullFromServer_wholesale_replace c5Remote c5Store _ _ _ rfl rfl rfl
    (by decide) (by decide) (by decide)

theorem syncAll_dispatches_eq (R : Remote) (now : Nat) (s : Store) :
    (SyncManager.syncAll R true false now s).dispatches = OfflineDB.getPendingSync s := by
  unfold SyncManager.syncAll
  by_cases he : (OfflineDB.getPendingSync s).isEmpty
  · rw [List.isEmpty_iff] at he
    cases hp : SyncManager.pullFromServer R true s <;> simp [he, hp]
  · have hne : OfflineDB.getPendingSync s ≠ [] := by
      intro hcontr
      exact he (List.isEmpty_iff.mpr hcontr)
    cases hp : SyncManager.pullFromServer R true
        (SyncManager.replayLoop R now (OfflineDB.getPendingSync s) s).store <;>
      simp [hne, hp, replayLoop_calls]

theorem pending_map_timestamp_sublist (s : Store) :
    List.Sublist ((OfflineDB.getPendingSync s).map QueueItem.timestamp)
      (s.syncQueue.map QueueItem.timestamp) :=
  List.Sublist.map QueueItem.timestamp (List.filter_sublist s.syncQueue)

/-- Claim C4: within one syncAll run the pending operations are dispatched
to the Remote Client exactly in queue (creation) order: the dispatch list
is precisely the synced = false queue entries in order, and when the queue
timestamps are strictly increasing (as the enqueue path guarantees, every
entry being stamped with its creation time) the dispatch timestamps are
strictly increasing too — for three operations created at t1 < t2 < t3 the
remote calls occur in that order. -/
theorem syncAll_dispatches_in_timestamp_order (R : Remote) (now : Nat) (s : Store)
    (hsorted : (s.syncQueue.map QueueItem.timestamp).Pairwise (· < ·)) :
    (SyncManager.syncAll R true false now s).dispatches = OfflineDB.getPendingSync s ∧
    ((SyncManager.syncAll R true false now s).dispatches.map
      QueueItem.timestamp).Pairwise (· < ·) := by
  refine ⟨syncAll_dispatches_eq R now s, ?_⟩
  rw [syncAll_dispatches_eq R now s]
  exact hsorted.sublist (pending_map_timestamp_sublist s)

/-- Witness for C4: three pending operations created at times 1 < 3 < 4
(one synced entry in between) are dispatched in exactly that order. -/
theorem syncAll_dispatches_in_timestamp_order_witness :
    (SyncManager.syncAll c4Remote true false 9 c4Store).dispatches =
      OfflineDB.getPendingSync c4Store ∧
    ((SyncManager.syncAll c4Remote true false 9 c4Store).dispatches.map
      QueueItem.timestamp).Pairwise (· < ·) :=
  syncAll_dispatches_in_timestamp_order c4Remote 9 c4Store (by decide)

/-- Claim C1: one failed replay never aborts the batch.  In a syncAll run
with a nonempty pending queue and a healthy final pull, every pending
operation is dispatched (in order), the returned accumulator counts
exactly the successes and the failures and lists each failure with its
error, and every operation whose dispatch succeeded — before or after any
failed one — is marked synced in the stored queue. -/
theorem syncAll_partial_failure_isolation (R : Remote) (s : Store) (now : Nat)
    (hnd : (s.syncQueue.map QueueItem.id).Nodup)
    (hf : fetchesOk R = true)
    (hne : OfflineDB.getPendingSync s ≠ []) :
    (SyncManager.syncAll R true false now s).dispatches = OfflineDB.getPendingSync s ∧
    (SyncManager.syncAll R true false now s).outcome =
      .completed ⟨((OfflineDB.getPendingSync s).filter (SyncManager.replayOk R)).length,
                  ((OfflineDB.getPendingSync s).filter
                    (fun op => !SyncManager.replayOk R op)).length,
                  failuresOf R (OfflineDB.getPendingSync s)⟩ ∧
    ∀ op ∈ OfflineDB.getPendingSync s, SyncManager.replayOk R op = true →
      getByKey QueueItem.id op.id
          (SyncManager.syncAll R true false now s).store.syncQueue
        = some { op with synced := true, syncedAt := some now } := by
  rw [syncAll_nonempty_pending R now s hne hf]
  refine ⟨replayLoop_calls R now _ s, ?_, ?_⟩
  · rw [replayLoop_results R now _ s]
  · intro op hop hok
    exact replayLoop_marks R now (OfflineDB.getPendingSync s) s
      (hnd.sublist (pending_map_id_sublist s))
      (fun op2 h2 => getByKey_of_mem_nodup QueueItem.id s.syncQueue op2
        (List.mem_of_mem_filter h2) hnd)
      op hop hok

/-- Witness for C1: of three pending operations the middle one (a book
update) fails against c1Remote; the run reports 2 succeeded and 1 failed
with the failing operation recorded, and both the first and the third
operation are marked synced. -/
theorem syncAll_partial_failure_isolation_witness :
    (SyncManager.syncAll c1Remote true false 20 c1Store).outcome =
      .completed ⟨2, 1, [(c1OpB, "Network Error")]⟩ ∧
    getByKey QueueItem.id 1
        (SyncManager.syncAll c1Remote true false 20 c1Store).store.syncQueue
      = some { c1OpA with synced := true, syncedAt := some 20 } ∧
    getByKey QueueItem.id 3
        (SyncManager.syncAll c1Remote true false 20 c1Store).store.syncQueue
      = some { c1OpC with synced := true, syncedAt := some 20 } := by
  have h := syncAll_partial_failure_isolation c1Remote c1Store 20 (by decide) rfl
    (by decide)
  exact ⟨h.2.1.trans (by decide), h.2.2 c1OpA (by decide) (by decide),
         h.2.2 c1OpC (by decide) (by decide)⟩

/-- Claim C3 counterexample: re-marking an already-synced operation is not
a no-op on the stored state.  OfflineDB.markSyncComplete re-stamps the
syncedAt bookkeeping field on every call, so re-marking operation 1 (synced
at time 5) at the later time 9 changes the stored row. -/
theorem markSyncComplete_remark_changes_state :
    OfflineDB.markSyncComplete 1 9 c3Store ≠ c3Store := by decide

/-- Claim C3 (amended): marking synced is idempotent up to the syncedAt
bookkeeping field.  The Dexie markSynced variant is unconditionally
idempotent; OfflineDB.markSyncComplete is idempotent when re-marking at
the same instant and always preserves every field except the synced /
syncedAt pair; and a second syncAll with no newly enqueued operations,
stable server data and a fully successful first replay leaves the Local
Store exactly as the first run left it. -/
theorem mark_synced_idempotent_amended :
    (∀ (i : Nat) (d : DexieStore),
       DexieDB.markSynced i (DexieDB.markSynced i d) = DexieDB.markSynced i d) ∧
    (∀ (i now : Nat) (s : Store),
       OfflineDB.markSyncComplete i now (OfflineDB.markSyncComplete i now s)
         = OfflineDB.markSyncComplete i now s ∧
       (OfflineDB.markSyncComplete i now s).syncQueue.map QueueItem.payloadPart
         = s.syncQueue.map QueueItem.payloadPart) ∧
    (∀ (R : Remote) (s : Store) (n1 n2 : Nat),
       (s.syncQueue.map QueueItem.id).Nodup → fetchesOk R = true →
       (∀ op ∈ OfflineDB.getPendingSync s, SyncManager.replayOk R op = true) →
       (SyncManager.syncAll R true false n2
           (SyncManager.syncAll R true false n1 s).store).store
         = (SyncManager.syncAll R true false n1 s).store) := by
  refine ⟨?_, ?_, ?_⟩
  · intro i d
    unfold DexieDB.markSynced
    congr 1
    rw [List.map_map]
    congr 1
    funext it
    by_cases h : it.id = i <;> simp [h]
  · intro i now s
    constructor
    · cases heq : getByKey QueueItem.id i s.syncQueue with
      | none =>
        have h1 : OfflineDB.markSyncComplete i now s = s := by
          unfold OfflineDB.markSyncComplete
          rw [heq]
        rw [h1, h1]
      | some item =>
        have hid : item.id = i := getByKey_key_eq _ _ _ _ heq
        have h1 : OfflineDB.markSyncComplete i now s =
            { s with syncQueue := putByKey QueueItem.id { item with synced := true, syncedAt := some now } s.syncQueue } := by
          unfold OfflineDB.markSyncComplete
          rw [heq]
        rw [h1]
        have hfind : getByKey QueueItem.id i
            (putByKey QueueItem.id { item with synced := true, syncedAt := some now }
              s.syncQueue)
            = some { item with synced := true, syncedAt := some now } := by
          have h2 := getByKey_putByKey_self QueueItem.id
            { item with synced := true, syncedAt := some now } s.syncQueue
          simpa [hid] using h2
        unfold OfflineDB.markSyncComplete
        simp only [hfind]
        congr 1
        exact putByKey_idem QueueItem.id _ s.syncQueue
    · cases heq : getByKey QueueItem.id i s.syncQueue with
      | none =>
        have h1 : OfflineDB.markSyncComplete i now s = s := by
          unfold OfflineDB.markSyncComplete
          rw [heq]
        rw [h1]
      | some item =>
        have hid : item.id = i := getByKey_key_eq _ _ _ _ heq
        have h1 : OfflineDB.markSyncComplete i now s =
            { s with syncQueue := putByKey QueueItem.id { item with synced := true, syncedAt := some now } s.syncQueue } := by
          unfold OfflineDB.markSyncComplete
          rw [heq]
        rw [h1]
        exact putByKey_map_of_agree QueueItem.id _ s.syncQueue item QueueItem.payloadPart
          (by simpa [hid] using heq) rfl
  · intro R s n1 n2 hnd hf hok
    by_cases hq : OfflineDB.getPendingSync s = []
    · rw [syncAll_empty_pending R n1 s hq hf]
      have hq1 : OfflineDB.getPendingSync (pulledStore R s) = [] := hq
      rw [syncAll_empty_pending R n2 (pulledStore R s) hq1 hf]
      exact pulledStore_eq_self R (pulledStore R s) rfl rfl rfl
    · rw [syncAll_nonempty_pending R n1 s hq hf]
      have hq1 : OfflineDB.getPendingSync
          (OfflineDB.saveMetadata "lastSync" n1 n1
            (pulledStore R
              (SyncManager.replayLoop R n1 (OfflineDB.getPendingSync s) s).store)) = [] :=
        getPendingSync_replay_empty R n1 s hnd hok
      rw [syncAll_empty_pending R n2 _ hq1 hf]
      exact pulledStore_eq_self R _ rfl rfl rfl

/-- Witness for amended C3: concrete double-marks are no-ops and a second
sync run over an already-drained queue leaves the store untouched. -/
theorem mark_synced_idempotent_amended_witness :
    DexieDB.markSynced 1 (DexieDB.markSynced 1 c3Dexie) = DexieDB.markSynced 1 c3Dexie ∧
    OfflineDB.markSyncComplete 1 9 (OfflineDB.markSyncComplete 1 9 c3Store)
      = OfflineDB.markSyncComplete 1 9 c3Store ∧
    (SyncManager.syncAll c3Remote true false 8
        (SyncManager.syncAll c3Remote true false 7 c3RunStore).store).store
      = (SyncManager.syncAll c3Remote true false 7 c3RunStore).store :=
  ⟨mark_synced_idempotent_amended.1 1 c3Dexie,
   (mark_synced_idempotent_amended.2.1 1 9 c3Store).1,
   mark_synced_idempotent_amended.2.2 c3Remote c3RunStore 7 8 (by decide) rfl (by decide)⟩

theorem pullFromServer_preserves (R : Remote) (o : Bool) (s s1 : Store)
    (h : SyncManager.pullFromServer R o s = .ok s1) :
    s1.syncQueue = s.syncQueue ∧ s1.metadata = s.metadata ∧
    s1.nextQueueId = s.nextQueueId := by
  unfold SyncManager.pullFromServer at h
  split at h
  · cases h
    exact ⟨rfl, rfl, rfl⟩
  · split at h <;> cases h
    exact ⟨rfl, rfl, rfl⟩

/-- Claim C6 counterexample: a syncAll run that starts with an empty
pending queue completes successfully (it pulls and returns the
success/synced-0 result) yet does not update lastSync: the metadata still
holds the old value 1, below the call time 5 — the saveMetadata call sits
only on the nonempty-queue path. -/
theorem syncAll_empty_queue_skips_lastSync :
    (SyncManager.syncAll c6Remote true false 5 c6Store).outcome = .emptyQueue ∧
    OfflineDB.getMetadata "lastSync"
      (SyncManager.syncAll c6Remote true false 5 c6Store).store = some 1 :=
  ⟨rfl, rfl⟩

/-- Claim C6 (amended): a syncAll run whose pending queue is nonempty and
whose final pull succeeds stamps lastSync with the run's current time
(hence a value at or after the call time); a run that starts with an empty
pending queue pulls but leaves the lastSync metadata exactly as it was. -/
theorem syncAll_lastSync_update (R : Remote) (s : Store) (now : Nat) :
    (OfflineDB.getPendingSync s ≠ [] → fetchesOk R = true →
       OfflineDB.getMetadata "lastSync"
         (SyncManager.syncAll R true false now s).store = some now) ∧
    (OfflineDB.getPendingSync s = [] →
       OfflineDB.getMetadata "lastSync"
         (SyncManager.syncAll R true false now s).store
         = OfflineDB.getMetadata "lastSync" s) := by
  constructor
  · intro hne hf
    rw [syncAll_nonempty_pending R now s hne hf]
    exact getMetadata_saveMetadata_self "lastSync" now now _
  · intro hq
    have hempty : (OfflineDB.getPendingSync s).isEmpty = true := List.isEmpty_iff.mpr hq
    unfold SyncManager.syncAll
    cases hp : SyncManager.pullFromServer R true s with
    | ok s1 =>
      simp [hempty, hp, OfflineDB.getMetadata,
            (pullFromServer_preserves R true s s1 hp).2.1]
    | error e =>
      simp [hempty, hp]

/-- Witness for amended C6: a nonempty run at time 9 stamps lastSync = 9;
an empty-queue run at time 5 leaves lastSync where it was. -/
theorem syncAll_lastSync_update_witness :
    OfflineDB.getMetadata "lastSync"
      (SyncManager.syncAll c6Remote true false 9 c6bStore).store = some 9 ∧
    OfflineDB.getMetadata "lastSync"
      (SyncManager.syncAll c6Remote true false 5 c6Store).store
      = OfflineDB.getMetadata "lastSync" c6Store :=
  ⟨(syncAll_lastSync_update c6Remote c6bStore 9).1 (by decide) rfl,
   (syncAll_lastSync_update c6Remote c6Store 5).2 (by decide)⟩

/-- Claim C7 counterexample: in the offlineApi.js facade a network error
while the Connectivity Monitor reports online is rethrown to the caller
instead of falling back to the cache — here the cache holds two books, yet
getAll returns the error. -/
theorem offlineBooksAPI_getAll_online_error_propagates :
    (offlineBooksAPI.getAll true c7RemoteFail "" c7Dexie).1 = .error "Network Error" ∧
    c7Dexie.books = [c7MobyDick, c7WarAndPeace] :=
  ⟨rfl, rfl⟩

/-- Claim C7 (amended): in the offlineAPI.js facade every read failure —
offline, or a network error while online — falls back to the Local Store
cache (books applying the caller's filter client-side); in the
offlineApi.js facade the fallback applies only when the monitor reports
offline, and an online network error propagates to the caller. -/
theorem facade_read_fallback (online : Bool)
    (rb : String → Except String (List Record))
    (rp rt : Except String (List Record)) (term : String) (s : Store)
    (d : DexieStore) (e : String) :
    (online = false ∨ (rb term).isOk = false →
       OfflineAPI.books.getAll online rb term s =
         ((if term ≠ "" then offlineApiBookFilter term s.books else s.books), s)) ∧
    (online = false ∨ rp.isOk = false →
       OfflineAPI.publishers.getAll online rp s = (s.publishers, s)) ∧
    (online = false ∨ rt.isOk = false →
       OfflineAPI.transactions.getAll online rt s = (s.transactions, s)) ∧
    (rb term = .error e →
       (offlineBooksAPI.getAll false rb term d).1 =
         .ok (if term ≠ "" then offlineBooksFilter term d.books else d.books) ∧
       (offlineBooksAPI.getAll true rb term d).1 = .error e) := by
  refine ⟨?_, ?_, ?_, ?_⟩
  · intro h
    rcases h with h | h
    · subst h
      rfl
    · cases hrb : rb term with
      | ok v =>
        rw [hrb] at h
        simp [Except.isOk, Except.toBool] at h
      | error e2 =>
        cases online
        · rfl
        · unfold OfflineAPI.books.getAll
          rw [hrb]
  · intro h
    rcases h with h | h
    · subst h
      rfl
    · cases hrp : rp with
      | ok v =>
        rw [hrp] at h
        simp [Except.isOk, Except.toBool] at h
      | error e2 =>
        cases online
        · rfl
        · rfl
  · intro h
    rcases h with h | h
    · subst h
      rfl
    · cases hrt : rt with
      | ok v =>
        rw [hrt] at h
        simp [Except.isOk, Except.toBool] at h
      | error e2 =>
        cases online
        · rfl
        · rfl
  · intro hrb
    constructor
    · simp [offlineBooksAPI.getAll, hrb]
    · simp [offlineBooksAPI.getAll, hrb]

/-- Witness for amended C7: with books Moby Dick and War and Peace cached,
a failing remote gives the filtered cache (exactly Moby Dick) through the
offlineAPI.js facade online and through the offlineApi.js facade offline,
while the offlineApi.js facade online rethrows. -/
theorem facade_read_fallback_witness :
    OfflineAPI.books.getAll true c7RemoteFail "moby" c7Store =
      ([c7MobyDick], c7Store) ∧
    (offlineBooksAPI.getAll false c7RemoteFail "moby" c7Dexie).1 = .ok [c7MobyDick] ∧
    (offlineBooksAPI.getAll true c7RemoteFail "moby" c7Dexie).1 =
      .error "Network Error" := by
  have h := facade_read_fallback true c7RemoteFail (.error "down") (.error "down")
    "moby" c7Store c7Dexie "Network Error"
  refine ⟨(h.1 (Or.inr rfl)).trans (by rfl), ?_, (h.2.2.2 rfl).2⟩
  exact ((h.2.2.2 rfl).1).trans (by rfl)

/-- Claim C8 counterexample: the Dexie-layer saveBooks helper catches a
storage-engine failure, logs it and still resolves successfully — the
promise reports success although nothing was saved (and getBooks under the
same failure resolves with the default empty list instead of rejecting). -/
theorem dexie_saveBooks_swallows_storage_error :
    (DexieDB.saveBooks (some "QuotaExceededError") [c8Book] c8Dexie).isOk = true ∧
    DexieDB.getBooks (some "QuotaExceededError") c8Dexie = .ok ([], c8Dexie) :=
  ⟨rfl, rfl⟩

/-- Claim C8 (amended): the OfflineDB (offlineDB.js) store operations
surface a storage-engine failure as a rejection, and so do the Dexie-layer
queue appends (addToSyncQueue, addPendingTransaction); but the Dexie-layer
cache helpers swallow the failure — saveBooks still resolves and getBooks
resolves with the default empty list. -/
theorem storage_error_surfacing (e : String) (data : List Record) (s : Store)
    (d : DexieStore) (bk : Record) (now : Nat) :
    OfflineDB.saveToStoreBooksE (some e) data s = .error e ∧
    DexieDB.addToSyncQueue (some e) .CREATE_BOOK bk now d = .error e ∧
    DexieDB.addPendingTransaction (some e) bk now d = .error e ∧
    (DexieDB.saveBooks (some e) data d).isOk = true ∧
    DexieDB.getBooks (some e) d = .ok ([], d) :=
  ⟨rfl, rfl, rfl, rfl, rfl⟩

/-- Claim C9 counterexample: in the offlineApi.js facade an offline
books.create builds its temporary id as the bare integer Date.now() — at
clock value 42 the returned record carries book_id 42, a value
indistinguishable from the integer id 42 a server could assign, and the
record bears no offline marker. -/
theorem offlineBooksAPI_create_temp_id_is_integer :
    (offlineBooksAPI.create false c9RemoteCreateFail c9Data 42 DexieStore.empty).1 =
      .ok { c9Data with book_id := some (JsId.num 42) } ∧
    ({ c9Data with book_id := some (JsId.num 42) } : Record).offlineFlag = false :=
  ⟨rfl, rfl⟩

/-- Claim C9 (amended): an offline create in the offlineAPI.js facade
returns the record with the string temporary id "temp_<now>" and the
_offline flag (never equal to any integer server id), stores it so it is
immediately visible through an offline getAll, and appends exactly one
CREATE_BOOK pending operation with synced = false; the offlineApi.js
facade behaves the same except that its temporary id is the bare integer
clock value with no offline marker, distinguishable from server ids only
by magnitude; offline transactions.create additionally stamps trans_date
with the current time in both facades (in the offlineApi.js facade a
trans_id already present in the payload overrides the temporary id, the
stamp sitting before the object spread, and the stored copy of the temp
row is re-stamped synced: true by saveTransactions while the returned
record keeps synced: false). -/
theorem offline_create_roundtrip (bookData transData : Record) (now : Nat) (s : Store)
    (d : DexieStore) (rc : Record → Except String Record)
    (rb : String → Except String (List Record)) (e1 e2 : String)
    (hfresh : ∀ it ∈ s.syncQueue, it.id ≠ s.nextQueueId)
    (hrc : rc bookData = .error e1)
    (hrt : rc transData = .error e2)
    (hnew : getByKey Record.book_id (some (JsId.num now)) d.books = none) :
    (OfflineAPI.books.create false rc bookData now s).1 =
      { bookData with book_id := some (JsId.str ("temp_" ++ toString now)), offlineFlag := true } ∧
    (∀ n : Int, (OfflineAPI.books.create false rc bookData now s).1.book_id ≠
      some (JsId.num n)) ∧
    (OfflineAPI.books.create false rc bookData now s).1 ∈
      (OfflineAPI.books.getAll false rb ""
        (OfflineAPI.books.create false rc bookData now s).2).1 ∧
    (OfflineAPI.books.create false rc bookData now s).2.syncQueue =
      s.syncQueue ++ [⟨s.nextQueueId, .CREATE_BOOK, bookData, now, false, none⟩] ∧
    (OfflineAPI.transactions.create false rc transData now s).1.trans_date = some now ∧
    (offlineBooksAPI.create false rc bookData now d).1 =
      .ok { bookData with book_id := some (JsId.num now) } ∧
    (offlineBooksAPI.create false rc bookData now d).2.syncQueue =
      d.syncQueue ++ [⟨d.nextQueueId, .CREATE_BOOK, bookData, now, false, none⟩] ∧
    ({ bookData with book_id := some (JsId.num now) } : Record) ∈
      (offlineBooksAPI.create false rc bookData now d).2.books ∧
    (offlineTransactionsAPI.create false rc transData now d).1 =
      .ok { transData with trans_id := tempTransId transData now, trans_date := some now, syncedFlag := some false } := by
  have hno : QueueItem.id
      (⟨s.nextQueueId, .CREATE_BOOK, bookData, now, false, none⟩ : QueueItem) ∉
      s.syncQueue.map QueueItem.id := by
    intro hmem
    obtain ⟨it, hit, hid⟩ := List.mem_map.mp hmem
    exact hfresh it hit hid
  refine ⟨rfl, ?_, ?_, ?_, rfl, ?_, ?_, ?_, ?_⟩
  · intro n hcontr
    simp [OfflineAPI.books.create, OfflineAPI.books.createOffline] at hcontr
  · exact mem_putByKey_self Record.book_id _ s.books
  · exact putByKey_of_not_mem QueueItem.id _ s.syncQueue hno
  · simp [offlineBooksAPI.create, hrc, DexieDB.addBook, hnew, DexieDB.addToSyncQueue]
  · simp [offlineBooksAPI.create, hrc, DexieDB.addBook, hnew, DexieDB.addToSyncQueue]
  · simp [offlineBooksAPI.create, hrc, DexieDB.addBook, hnew, DexieDB.addToSyncQueue]
  · simp [offlineTransactionsAPI.create, hrt, DexieDB.addPendingTransaction,
          DexieDB.getTransactions, DexieDB.saveTransactions]

/-- Witness for amended C9: an offline create at time 7 with an empty
local database returns the temp-id records of each facade, queues one
CREATE_BOOK operation, and stamps trans_date. -/
theorem offline_create_roundtrip_witness :
    (OfflineAPI.books.create false c9RemoteCreateFail c9Data 7 Store.empty).1 =
      { c9Data with book_id := some (JsId.str ("temp_" ++ toString 7)), offlineFlag := true } ∧
    (OfflineAPI.books.create false c9RemoteCreateFail c9Data 7 Store.empty).2.syncQueue =
      [⟨1, .CREATE_BOOK, c9Data, 7, false, none⟩] ∧
    (OfflineAPI.transactions.create false c9RemoteCreateFail c9TransData 7
      Store.empty).1.trans_date = some 7 ∧
    (offlineBooksAPI.create false c9RemoteCreateFail c9Data 7 DexieStore.empty).1 =
      .ok { c9Data with book_id := some (JsId.num 7) } ∧
    (offlineTransactionsAPI.create false c9RemoteCreateFail c9TransData 7
      DexieStore.empty).1 =
      .ok { c9TransData with trans_id := some (JsId.num 7), trans_date := some 7, syncedFlag := some false } := by
  have h := offline_create_roundtrip c9Data c9TransData 7 Store.empty DexieStore.empty
    c9RemoteCreateFail c9RemoteGetFail "Network Error" "Network Error"
    (by decide) rfl rfl rfl
  exact ⟨h.1, h.2.2.2.1, h.2.2.2.2.1, h.2.2.2.2.2.1, h.2.2.2.2.2.2.2.2⟩

end LibraryPOS
